import Mathlib

/-!
Verification of the three-phase sensor dashboard (src/main.py).

The dashboard's data layer is shallowly embedded:

* a pandas Series with a timestamp index becomes a list of
  (index, value) pairs over `ℤ × ℚ` (timestamps as integers, sample
  values as exact rationals);
* a pandas DataFrame becomes a record of an index list and a list of
  named columns;
* Python exceptions (KeyError, ValueError, IndexError, NameError and
  plotly argument validation) become `Option`-valued results, `none`
  standing for "the call raises".

All embedded functions are computable so that every theorem can be
exercised on concrete inputs.
-/

/-- A pandas Series of rational samples over an integer timestamp
index: the list of (index, value) pairs in order. -/
abbrev Series := List (ℤ × ℚ)

/-- An unindexed dataframe, as produced by pd.read_csv: named columns
over an arbitrary cell type. -/
structure Frame (α : Type) where
  cols : List (String × List α)
deriving Repr, DecidableEq

/-- A dataframe carrying a (datetime) index, as produced by
prep_datetime: the index list plus the named value columns. -/
structure DataFrame (α : Type) where
  index : List ℤ
  cols : List (String × List α)
deriving Repr, DecidableEq

/-- ser.mean(): the arithmetic mean of the values (pandas mean over a
float series; division by zero for the empty series is the junk value
0 in ℚ, pandas would give NaN there). -/
def series_mean (xs : List ℚ) : ℚ :=
  xs.sum / xs.length

/-- ser.std()**2, pandas sample variance with ddof = 1:
sum of squared deviations from the mean divided by (n - 1).  For a
series of length ≤ 1 the ℚ division by zero yields 0 (pandas would
give NaN). -/
def series_var (xs : List ℚ) : ℚ :=
  ((xs.map (fun x => (x - series_mean xs) ^ 2)).sum) / ((xs.length : ℚ) - 1)

/-- filter_outliers_from_series (src/main.py lines 114-127):
computes mu = ser.mean() and std = ser.std() once over the whole
series and keeps exactly the entries with
mu - 3*std <= value <= mu + 3*std.  Over ℚ the comparison
against mu ± 3*std is expressed by the equivalent square comparison
(value - mu)^2 <= 9*std^2 = 9*var (the two are equivalent because a
standard deviation is nonnegative; the equivalence with the source's
formulation through the real square root is proved in
filter_outliers_from_series_spec). -/
def filter_outliers_from_series (ser : Series) : Series :=
  let mu := series_mean (ser.map Prod.snd)
  let v := series_var (ser.map Prod.snd)
  ser.filter (fun p => decide ((p.2 - mu) ^ 2 ≤ 9 * v))

/-- col[-1] on a Python string: the last character, when the string is
nonempty (Python raises IndexError on the empty string). -/
def last_char (s : String) : Option Char :=
  s.data.getLast?

/-- filter_df_cols (src/main.py lines 104-111): keep, in original
order, exactly the columns whose name's last character is in
type_selection, leaving the index and the kept columns' values
untouched.  A column with an empty name is never selected here (the
Python original would raise IndexError at col[-1]; the data columns of
this app always have nonempty names). -/
def filter_df_cols (df : DataFrame α) (type_selection : List Char) : DataFrame α :=
  { index := df.index,
    cols := df.cols.filter (fun c =>
      match last_char c.1 with
      | some ch => type_selection.contains ch
      | none => false) }

/-- prep_datetime (src/main.py lines 82-91): parse the 'time' column
with pd.Timedelta and the 'day' column with pd.to_datetime, set the
rowwise sum as the index, and drop the 'day' and 'time' columns.  The
two pandas parsers are abstracted as functions into integer
timestamps; a missing 'day' or 'time' column (Python KeyError) gives
none. -/
def prep_datetime (parse_date parse_td : α → ℤ) (df : Frame α) : Option (DataFrame α) :=
  match List.lookup "day" df.cols, List.lookup "time" df.cols with
  | some day_col, some time_col =>
      some { index := List.zipWith (fun d t => parse_date d + parse_td t) day_col time_col,
             cols := df.cols.filter (fun c => !((c.1 == "day") || (c.1 == "time"))) }
  | _, _ => none

/-- label_dict (src/main.py lines 18-21, repeated inside make_figure
at lines 137-140): the display label of each signal-type code. -/
def label_dict : List (Char × String) :=
  [('p', "real power"), ('q', "imaginary power"),
   ('i', "current"), ('v', "voltage")]

/-- dropdown_options (src/main.py line 24): one (label, value) pair
per entry of label_dict, in order. -/
def dropdown_options : List (String × Char) :=
  label_dict.map (fun kv => (kv.2, kv.1))

/-- The value attribute of the outlier RadioItems control
(src/main.py lines 34-41): the two selectable values and the
initial one. -/
def outlier_radio_values : List String := ["include", "remove"]

/-- The initial value of the outlier radio control (src/main.py
line 40). -/
def outlier_radio_default : String := "include"

/-- int(col[1]) (src/main.py line 157): the digit at index 1 of the
column name, none when the name is too short (IndexError) or the
character is not a digit (ValueError). -/
def phase_num_of (s : String) : Option ℕ :=
  match s.data.get? 1 with
  | some c => if c.isDigit then some (c.toNat - 48) else none
  | none => none

/-- color_dict (src/main.py line 141): the line color of each phase;
none models the KeyError for a phase outside 1..3. -/
def color_dict (ph : ℕ) : Option String :=
  if ph = 1 then some "red"
  else if ph = 2 then some "blue"
  else if ph = 3 then some "green"
  else none

/-- type_selection.index(val_type) (src/main.py line 163): position of
the first occurrence, none modelling the ValueError when absent. -/
def py_index : List Char → Char → Option ℕ
  | [], _ => none
  | x :: xs, c => if x = c then some 0 else (py_index xs c).map (· + 1)

/-- is_non_zero (src/main.py line 160): (y.min() and y.max()) != 0
with Python truthiness on floats (0 is falsy, so the expression is
y.min() if y.min() == 0 and y.max() otherwise).  For an empty series
pandas min/max are NaN, which is truthy and != 0, so the result is
true. -/
def is_non_zero (ys : List ℚ) : Bool :=
  match ys with
  | [] => true
  | a :: t => decide ((if (a :: t).foldl min a = 0
                       then (a :: t).foldl min a
                       else (a :: t).foldl max a) ≠ 0)

/-- The y series a column contributes (src/main.py lines 153-155):
the column zipped with the dataframe index, passed through
filter_outliers_from_series exactly when filter_outliers is set. -/
def plotted_series (filter_outliers : Bool) (index : List ℤ) (ys : List ℚ) : Series :=
  if filter_outliers then filter_outliers_from_series (index.zip ys)
  else index.zip ys

/-- One go.Scatter trace added by make_figure, with the subplot cell
it is added to (src/main.py lines 175-182).  visible = false models
the 'legendonly' setting. -/
structure Trace where
  x : List ℤ
  y : List ℚ
  legendgroup : String
  name : String
  showlegend : Bool
  visible : Bool
  color : String
  row : ℕ
  col : ℕ
deriving Repr, DecidableEq

/-- The plotly figure assembled by make_figure: the subplot grid shape
requested from make_subplots, the subplot titles, the traces, and the
final layout size. -/
structure Figure where
  rows : ℕ
  cols : ℕ
  subplot_titles : List String
  traces : List Trace
  height : ℕ
  width : ℕ
deriving Repr, DecidableEq

/-- The subplot_titles comprehension of make_figure (src/main.py
line 142): one title per selected symbol, none modelling the KeyError
on a symbol outside label_dict. -/
def subplot_titles_of : List Char → Option (List String)
  | [] => some []
  | sym :: rest =>
    match List.lookup sym label_dict with
    | none => none
    | some lbl =>
      match subplot_titles_of rest with
      | none => none
      | some ts => some ((lbl ++ " (" ++ sym.toString ++ ")") :: ts)

/-- The body of one iteration of the trace loop of make_figure
(src/main.py lines 151-182), for a single column, given the legend
groups already seen: parse the phase digit and the type suffix, find
the subplot row from the position of the type in type_selection, look
up the phase color, and build the Scatter trace.  none models the
IndexError/ValueError/KeyError exits of the original. -/
def mk_trace (type_selection : List Char) (filter_outliers : Bool) (index : List ℤ)
    (legend_lst : List String) (c : String × List ℚ) : Option Trace :=
  match phase_num_of c.1 with
  | none => none
  | some ph =>
    match last_char c.1 with
    | none => none
    | some vt =>
      match py_index type_selection vt with
      | none => none
      | some k =>
        match color_dict ph with
        | none => none
        | some colr =>
          let y := plotted_series filter_outliers index c.2
          let lg := "phase " ++ toString ph
          some { x := y.map Prod.fst, y := y.map Prod.snd,
                 legendgroup := lg, name := lg,
                 showlegend := ! legend_lst.contains lg,
                 visible := is_non_zero (y.map Prod.snd),
                 row := k + 1, col := 1, color := colr }

/-- The trace loop of make_figure (src/main.py lines 149-182): one
trace per column, threading legend_lst so that each legend group shows
its legend entry only on its first trace. -/
def mk_traces (type_selection : List Char) (filter_outliers : Bool) (index : List ℤ) :
    List (String × List ℚ) → List String → Option (List Trace)
  | [], _ => some []
  | c :: rest, legend_lst =>
    match mk_trace type_selection filter_outliers index legend_lst c with
    | none => none
    | some t =>
      match mk_traces type_selection filter_outliers index rest
          (if legend_lst.contains t.legendgroup then legend_lst
           else legend_lst ++ [t.legendgroup]) with
      | none => none
      | some ts => some (t :: ts)

/-- make_figure (src/main.py lines 130-186).  The subplot titles are
computed first (KeyError there precedes everything), then
make_subplots is called with rows = len(df.columns) — for an empty
column list this is rows = 0, which plotly rejects (and the loop
variable i used in the final update_layout would stay unbound), so the
call raises: none.  Otherwise the trace loop runs and the layout
height is 200*(i+1) = 200*len(df.columns). -/
def make_figure (df : DataFrame ℚ) (type_selection : List Char)
    (filter_outliers : Bool) : Option Figure :=
  match subplot_titles_of type_selection with
  | none => none
  | some titles =>
    if df.cols.isEmpty then none
    else
      match mk_traces type_selection filter_outliers df.index df.cols [] with
      | none => none
      | some ts =>
        some { rows := df.cols.length, cols := 1,
               subplot_titles := titles, traces := ts,
               height := 200 * df.cols.length, width := 600 }

/-- update_graph (src/main.py lines 205-221): outlier filtering is on
exactly when the radio value is not the string include; the dataframe
is restricted to the selected signal types and handed to
make_figure. -/
def update_graph (df : DataFrame ℚ) (type_selection : List Char)
    (outlier_radio : String) : Option Figure :=
  let outlier_radio_bool := if outlier_radio = "include" then false else true
  make_figure (filter_df_cols df type_selection) type_selection outlier_radio_bool

/-! ## Helper lemmas -/

/-- The sample variance is never negative: the numerator is a sum of
squares and the denominator n - 1 is only negative when the series is
empty, where the numerator is 0. -/
theorem series_var_nonneg (xs : List ℚ) : 0 ≤ series_var xs := by
  cases xs with
  | nil => simp [series_var]
  | cons a l =>
    unfold series_var
    apply div_nonneg
    · apply List.sum_nonneg
      intro q hq
      obtain ⟨x, _, rfl⟩ := List.mem_map.1 hq
      positivity
    · have h1 : (1 : ℚ) ≤ ((a :: l).length : ℚ) := by
        exact_mod_cast Nat.succ_le_of_lt (List.length_pos.mpr (by simp))
      linarith

/-- For a nonnegative v, being within 3*sqrt v of b is the same as the
squared distance being at most 9*v. -/
theorem sq_le_iff_within_three_sqrt (a b v : ℝ) (hv : 0 ≤ v) :
    (a - b) ^ 2 ≤ 9 * v ↔ (b - 3 * Real.sqrt v ≤ a ∧ a ≤ b + 3 * Real.sqrt v) := by
  have hs0 : 0 ≤ Real.sqrt v := Real.sqrt_nonneg v
  have hs2 : Real.sqrt v ^ 2 = v := Real.sq_sqrt hv
  constructor
  · intro h
    have hsq : (a - b) ^ 2 ≤ (3 * Real.sqrt v) ^ 2 := by nlinarith
    have := abs_le_of_sq_le_sq' hsq (by positivity)
    constructor <;> linarith [this.1, this.2]
  · rintro ⟨h1, h2⟩
    have hsq : (a - b) ^ 2 ≤ (3 * Real.sqrt v) ^ 2 :=
      sq_le_sq' (by linarith) (by linarith)
    nlinarith

/-! ## C1: the outlier filter keeps exactly the in-band samples -/

/-- C1.  An entry survives filter_outliers_from_series exactly when it
is an entry of the input whose value lies between mean - 3*std and
mean + 3*std, where the mean and the standard deviation (the real
square root of the sample variance) are computed once over the whole
input series. -/
theorem filter_outliers_from_series_spec (ser : Series) (p : ℤ × ℚ) :
    p ∈ filter_outliers_from_series ser ↔
      p ∈ ser ∧
        ((series_mean (ser.map Prod.snd) : ℝ) -
            3 * Real.sqrt (series_var (ser.map Prod.snd)) ≤ (p.2 : ℝ) ∧
          (p.2 : ℝ) ≤ (series_mean (ser.map Prod.snd) : ℝ) +
            3 * Real.sqrt (series_var (ser.map Prod.snd))) := by
  have hv : (0 : ℚ) ≤ series_var (ser.map Prod.snd) := series_var_nonneg _
  have hvR : (0 : ℝ) ≤ (series_var (ser.map Prod.snd) : ℝ) := by exact_mod_cast hv
  rw [filter_outliers_from_series, List.mem_filter]
  simp only [decide_eq_true_eq]
  constructor
  · rintro ⟨hmem, hq⟩
    refine ⟨hmem, ?_⟩
    have hR : ((p.2 : ℝ) - (series_mean (ser.map Prod.snd) : ℝ)) ^ 2 ≤
        9 * (series_var (ser.map Prod.snd) : ℝ) := by exact_mod_cast hq
    exact (sq_le_iff_within_three_sqrt _ _ _ hvR).1 hR
  · rintro ⟨hmem, hband⟩
    refine ⟨hmem, ?_⟩
    have hR := (sq_le_iff_within_three_sqrt ((p.2 : ℝ))
        ((series_mean (ser.map Prod.snd) : ℝ)) _ hvR).2 hband
    exact_mod_cast hR

/-! ## C9: the output of the outlier filter is a sub-series -/

/-- C9.  The filtered series is a sublist of the input: every
(index, value) pair of the output occurs in the input with its value
unmodified, and the surviving entries keep their relative order. -/
theorem filter_outliers_from_series_sublist (ser : Series) :
    (filter_outliers_from_series ser).Sublist ser :=
  List.filter_sublist ser

/-- Looking a key up in a list filtered by a predicate on keys alone:
the lookup goes through unchanged when the key passes the predicate
and finds nothing when it fails it. -/
theorem lookup_filter_key {β : Type} (q : String → Bool) (l : List (String × β)) (nm : String) :
    List.lookup nm (l.filter (fun c => q c.1)) =
      if q nm then List.lookup nm l else none := by
  induction l with
  | nil => cases hq : q nm <;> simp [hq]
  | cons c t ih =>
    obtain ⟨k, v⟩ := c
    cases hbeq : (nm == k) with
    | true =>
      have heq : nm = k := eq_of_beq hbeq
      cases hq : q k with
      | false =>
        rw [List.filter_cons, if_neg (by simp [hq]), ih, heq, hq]
        simp
      | true =>
        rw [List.filter_cons, if_pos (by simp [hq]), heq, hq]
        simp [List.lookup]
    | false =>
      cases hq : q k <;> cases hq2 : q nm <;>
        simp [List.filter_cons, hq, hq2, List.lookup, hbeq, ih]

/-- Anatomy of one successful loop iteration of make_figure: the trace
it appends records the phase color, the subplot row derived from the
position of the type suffix in the selection, and the (possibly
outlier-filtered) series data. -/
theorem mk_trace_spec (S : List Char) (fo : Bool) (index : List ℤ)
    (lst : List String) (c : String × List ℚ) (t : Trace)
    (h : mk_trace S fo index lst c = some t) :
    (∃ ph, phase_num_of c.1 = some ph ∧ color_dict ph = some t.color ∧
      t.legendgroup = "phase " ++ toString ph) ∧
    (∃ ch k, last_char c.1 = some ch ∧ py_index S ch = some k ∧ t.row = k + 1) ∧
    t.y = (plotted_series fo index c.2).map Prod.snd ∧
    t.x = (plotted_series fo index c.2).map Prod.fst ∧
    t.col = 1 := by
  rw [mk_trace] at h
  split at h
  · simp at h
  rename_i ph hph
  split at h
  · simp at h
  rename_i vt hvt
  split at h
  · simp at h
  rename_i k hpi
  split at h
  · simp at h
  rename_i colr hcd
  simp only [Option.some.injEq] at h
  subst h
  exact ⟨⟨ph, hph, hcd, rfl⟩, ⟨vt, k, hvt, hpi, rfl⟩, rfl, rfl, rfl⟩

/-- A successful run of the trace loop yields one trace per column,
and the j-th trace is the mk_trace of the j-th column (for the legend
state current at that iteration). -/
theorem mk_traces_get (S : List Char) (fo : Bool) (index : List ℤ) :
    ∀ (cols : List (String × List ℚ)) (lst : List String) (ts : List Trace),
      mk_traces S fo index cols lst = some ts →
      ts.length = cols.length ∧
      ∀ j c, cols.get? j = some c →
        ∃ t lst2, ts.get? j = some t ∧ mk_trace S fo index lst2 c = some t := by
  intro cols
  induction cols with
  | nil =>
    intro lst ts h
    rw [mk_traces] at h
    simp only [Option.some.injEq] at h
    subst h
    exact ⟨rfl, by intro j c hc; simp at hc⟩
  | cons c rest ih =>
    intro lst ts h
    rw [mk_traces] at h
    split at h
    · simp at h
    rename_i t h1
    split at h
    · simp at h
    rename_i ts2 h2
    simp only [Option.some.injEq] at h
    subst h
    obtain ⟨hlen, hget⟩ := ih _ _ h2
    refine ⟨by simp [hlen], ?_⟩
    intro j cc hcc
    cases j with
    | zero =>
      simp only [List.get?_cons_zero, Option.some.injEq] at hcc
      subst hcc
      exact ⟨t, lst, rfl, h1⟩
    | succ n =>
      simp only [List.get?_cons_succ] at hcc
      obtain ⟨t2, lst2, hts, hmt⟩ := hget n cc hcc
      exact ⟨t2, lst2, by simpa using hts, hmt⟩

/-- The subplot-titles comprehension yields one title per selected
symbol. -/
theorem subplot_titles_of_length : ∀ (S : List Char) (ts : List String),
    subplot_titles_of S = some ts → ts.length = S.length := by
  intro S
  induction S with
  | nil =>
    intro ts h
    rw [subplot_titles_of] at h
    simp only [Option.some.injEq] at h
    subst h
    rfl
  | cons sym rest ih =>
    intro ts h
    rw [subplot_titles_of] at h
    cases h1 : List.lookup sym label_dict with
    | none => rw [h1] at h; simp at h
    | some lbl =>
      rw [h1] at h
      cases h2 : subplot_titles_of rest with
      | none => rw [h2] at h; simp at h
      | some ts2 =>
        rw [h2] at h
        simp only [Option.some.injEq] at h
        subst h
        simp [ih ts2 h2]

/-- A found list position is below the list length. -/
theorem py_index_lt_length : ∀ (S : List Char) (c : Char) (k : ℕ),
    py_index S c = some k → k < S.length := by
  intro S
  induction S with
  | nil => intro c k h; rw [py_index] at h; simp at h
  | cons x xs ih =>
    intro c k h
    rw [py_index] at h
    by_cases hx : x = c
    · rw [if_pos hx] at h
      simp only [Option.some.injEq] at h
      simp only [List.length_cons]
      omega
    · rw [if_neg hx] at h
      cases h2 : py_index xs c with
      | none => rw [h2] at h; simp at h
      | some m =>
        rw [h2] at h
        simp only [Option.map_some', Option.some.injEq] at h
        have := ih c m h2
        simp only [List.length_cons]
        omega

/-- The list.index lookup succeeds on any member of the list. -/
theorem mem_py_index : ∀ (S : List Char) (c : Char), c ∈ S →
    ∃ k, py_index S c = some k := by
  intro S
  induction S with
  | nil => intro c h; cases h
  | cons x xs ih =>
    intro c h
    by_cases hx : x = c
    · exact ⟨0, by rw [py_index, if_pos hx]⟩
    · have hmem : c ∈ xs := by
        rcases List.mem_cons.mp h with h1 | h1
        · exact absurd h1.symm hx
        · exact h1
      obtain ⟨k, hk⟩ := ih c hmem
      exact ⟨k + 1, by rw [py_index, if_neg hx, hk]; rfl⟩

/-- Inversion of a successful make_figure: the titles came from the
selection, the traces from the trace loop started with an empty legend
list, and the grid shape and layout record the column count. -/
theorem make_figure_inv (df : DataFrame ℚ) (S : List Char) (fo : Bool) (fig : Figure)
    (h : make_figure df S fo = some fig) :
    ∃ titles, subplot_titles_of S = some titles ∧
      mk_traces S fo df.index df.cols [] = some fig.traces ∧
      fig = { rows := df.cols.length, cols := 1, subplot_titles := titles,
              traces := fig.traces, height := 200 * df.cols.length, width := 600 } := by
  rw [make_figure] at h
  split at h
  · simp at h
  rename_i titles h1
  split at h
  · simp at h
  split at h
  · simp at h
  rename_i ts h2
  simp only [Option.some.injEq] at h
  subst h
  exact ⟨titles, h1, by rw [h2], rfl⟩

/-! ## C3: filter_df_cols keeps exactly the matching columns -/

/-- C3.  On a dataframe whose column names are nonempty (so that the
Python col[-1] is defined), filter_df_cols leaves the index (the rows)
untouched, returns a sublist of the original columns (original order,
values unchanged), and keeps a column exactly when the last character
of its name is a member of the selection. -/
theorem filter_df_cols_spec {α : Type} (df : DataFrame α) (S : List Char)
    (_hne : ∀ c ∈ df.cols, c.1 ≠ "") :
    (filter_df_cols df S).index = df.index ∧
      ((filter_df_cols df S).cols).Sublist df.cols ∧
      ∀ c ∈ df.cols,
        (c ∈ (filter_df_cols df S).cols ↔
          ∃ ch, last_char c.1 = some ch ∧ ch ∈ S) := by
  refine ⟨rfl, List.filter_sublist _, ?_⟩
  intro c hc
  rw [filter_df_cols]
  simp only [List.mem_filter]
  constructor
  · rintro ⟨-, hpred⟩
    cases hlast : last_char c.1 with
    | none => rw [hlast] at hpred; exact absurd hpred (by simp)
    | some ch =>
      rw [hlast] at hpred
      exact ⟨ch, rfl, by simpa using hpred⟩
  · rintro ⟨ch, hlast, hmem⟩
    refine ⟨hc, ?_⟩
    rw [hlast]
    simpa using hmem

/-- Concrete dataframe used to exercise filter_df_cols_spec. -/
def c3_df : DataFrame ℚ :=
  { index := [0, 1], cols := [("l1p", [5, 6]), ("l2q", [7, 8]), ("xy", [9, 10])] }

/-- Witness for C3: the hypotheses of filter_df_cols_spec hold and its
conclusion follows on a concrete dataframe and selection. -/
theorem filter_df_cols_spec_witness :
    (∀ c ∈ c3_df.cols, c.1 ≠ "") ∧
      ((filter_df_cols c3_df ['p']).index = c3_df.index ∧
        ((filter_df_cols c3_df ['p']).cols).Sublist c3_df.cols ∧
        ∀ c ∈ c3_df.cols,
          (c ∈ (filter_df_cols c3_df ['p']).cols ↔
            ∃ ch, last_char c.1 = some ch ∧ ch ∈ ['p'])) :=
  ⟨by decide, filter_df_cols_spec c3_df ['p'] (by decide)⟩

/-! ## C4: prep_datetime builds the timestamp index and drops day/time -/

/-- C4.  When the frame has 'day' and 'time' columns, prep_datetime
succeeds; the resulting index is the rowwise sum of the parsed day and
the parsed time-of-day, the 'day' and 'time' columns are gone, the
remaining columns are a sublist of the originals (order and values
unchanged), and every other column is still found with its original
values. -/
theorem prep_datetime_spec {α : Type} (parse_date parse_td : α → ℤ)
    (df : Frame α) (day_col time_col : List α)
    (hd : List.lookup "day" df.cols = some day_col)
    (ht : List.lookup "time" df.cols = some time_col) :
    ∃ out, prep_datetime parse_date parse_td df = some out ∧
      out.index = List.zipWith (fun d t => parse_date d + parse_td t) day_col time_col ∧
      List.lookup "day" out.cols = none ∧
      List.lookup "time" out.cols = none ∧
      out.cols.Sublist df.cols ∧
      ∀ nm, nm ≠ "day" → nm ≠ "time" →
        List.lookup nm out.cols = List.lookup nm df.cols := by
  refine ⟨_, by rw [prep_datetime, hd, ht], rfl, ?_, ?_, List.filter_sublist _, ?_⟩
  · rw [lookup_filter_key (fun s => !((s == "day") || (s == "time")))]
    simp
  · rw [lookup_filter_key (fun s => !((s == "day") || (s == "time")))]
    simp
  · intro nm hnd hnt
    rw [lookup_filter_key (fun s => !((s == "day") || (s == "time")))]
    simp [beq_eq_false_iff_ne.mpr hnd, beq_eq_false_iff_ne.mpr hnt]

/-- Concrete raw frame used to exercise prep_datetime_spec. -/
def c4_frame : Frame ℤ :=
  { cols := [("day", [10, 20]), ("time", [3, 4]), ("l1p", [7, 8])] }

/-- Witness for C4: the hypotheses of prep_datetime_spec hold and its
conclusion follows on a concrete frame, with the identity as both
parsers. -/
theorem prep_datetime_spec_witness :
    (List.lookup "day" c4_frame.cols = some [10, 20]) ∧
      (List.lookup "time" c4_frame.cols = some [3, 4]) ∧
      ∃ out, prep_datetime (fun n => n) (fun n => n) c4_frame = some out ∧
        out.index = List.zipWith (fun d t => (fun n => n) d + (fun n => n) t)
          [10, 20] [3, 4] ∧
        List.lookup "day" out.cols = none ∧
        List.lookup "time" out.cols = none ∧
        out.cols.Sublist c4_frame.cols ∧
        ∀ nm, nm ≠ "day" → nm ≠ "time" →
          List.lookup nm out.cols = List.lookup nm c4_frame.cols :=
  ⟨rfl, rfl, prep_datetime_spec (fun n => n) (fun n => n) c4_frame [10, 20] [3, 4] rfl rfl⟩

/-! ## C7: the display names of the signal types -/

/-- C7 counterexample.  The code does not present p and q under the
glossary names power and reactive power: label_dict maps p to the
string real power and q to the string imaginary power. -/
theorem label_names_counterexample :
    (List.lookup 'p' label_dict = some "real power" ∧ "real power" ≠ "power") ∧
      (List.lookup 'q' label_dict = some "imaginary power" ∧
        "imaginary power" ≠ "reactive power") := by
  decide

/-- C7 amended.  The four signal types are presented, in the dropdown
options and in the subplot titles, under the label_dict names:
real power for p, imaginary power for q, current for i, voltage
for v. -/
theorem label_names_amended :
    dropdown_options = [("real power", 'p'), ("imaginary power", 'q'),
        ("current", 'i'), ("voltage", 'v')] ∧
      subplot_titles_of ['p', 'q', 'i', 'v'] =
        some ["real power (p)", "imaginary power (q)", "current (i)", "voltage (v)"] :=
  ⟨rfl, rfl⟩

/-! ## C2: subplot rows per type versus per column -/

/-- Concrete dataframe with three phases of two signal types: six
value columns. -/
def c2_df : DataFrame ℚ :=
  { index := [0, 1],
    cols := [("l1p", [1, 2]), ("l2p", [0, 0]), ("l3p", [3, 3]),
             ("l1q", [4, 4]), ("l2q", [5, 5]), ("l3q", [6, 6])] }

/-- C2 counterexample.  On a six-column dataframe with two selected
signal types, make_figure requests a subplot grid of six rows — one
per dataframe column — not the two rows (one per selected type) the
claim asserts. -/
theorem make_figure_rows_counterexample :
    c2_df.cols.length = 6 ∧
      (['p', 'q'] : List Char).length = 2 ∧
      (make_figure c2_df ['p', 'q'] false).map Figure.rows = some 6 ∧
      (6 : ℕ) ≠ 2 := by
  refine ⟨rfl, rfl, ?_, by decide⟩
  rfl

/-- C2 amended.  A successful make_figure requests one subplot row per
dataframe column (rows = len(df.columns)); it supplies one subplot
title per selected type, draws one trace per column, and places the
trace of every column in the subplot row given by the position of the
column's type suffix in the selection (so all phases of one type share
one row, within 1..len(type_selection)). -/
theorem make_figure_subplot_layout (df : DataFrame ℚ) (S : List Char)
    (fo : Bool) (fig : Figure) (h : make_figure df S fo = some fig) :
    fig.rows = df.cols.length ∧
      fig.subplot_titles.length = S.length ∧
      fig.traces.length = df.cols.length ∧
      ∀ j c, df.cols.get? j = some c →
        ∃ t ch k, fig.traces.get? j = some t ∧ last_char c.1 = some ch ∧
          py_index S ch = some k ∧ t.row = k + 1 ∧ k < S.length := by
  obtain ⟨titles, h1, h2, hfig⟩ := make_figure_inv df S fo fig h
  obtain ⟨hlen, hget⟩ := mk_traces_get S fo df.index df.cols [] fig.traces h2
  refine ⟨by rw [hfig], ?_, hlen, ?_⟩
  · rw [hfig]
    exact subplot_titles_of_length S titles h1
  · intro j c hc
    obtain ⟨t, lst2, hts, hmt⟩ := hget j c hc
    obtain ⟨-, ⟨ch, k, hch, hpi, hrow⟩, -, -, -⟩ :=
      mk_trace_spec S fo df.index lst2 c t hmt
    exact ⟨t, ch, k, hts, hch, hpi, hrow, py_index_lt_length S ch k hpi⟩

/-- Filler figure used only to extract concrete figures from Option
results. -/
def junk_figure : Figure :=
  { rows := 0, cols := 0, subplot_titles := [], traces := [], height := 0, width := 0 }

/-- Concrete two-column dataframe for the C2 witness. -/
def c2w_df : DataFrame ℚ :=
  { index := [0, 1], cols := [("l1p", [1, 2]), ("l1q", [3, 4])] }

/-- The concrete figure make_figure builds on c2w_df. -/
def c2w_fig : Figure := (make_figure c2w_df ['p', 'q'] true).getD junk_figure

/-- Witness for the amended C2: on a concrete dataframe the hypothesis
of make_figure_subplot_layout holds and its conclusion follows. -/
theorem make_figure_subplot_layout_witness :
    (make_figure c2w_df ['p', 'q'] true = some c2w_fig) ∧
      (c2w_fig.rows = c2w_df.cols.length ∧
        c2w_fig.subplot_titles.length = (['p', 'q'] : List Char).length ∧
        c2w_fig.traces.length = c2w_df.cols.length ∧
        ∀ j c, c2w_df.cols.get? j = some c →
          ∃ t ch k, c2w_fig.traces.get? j = some t ∧ last_char c.1 = some ch ∧
            py_index ['p', 'q'] ch = some k ∧ t.row = k + 1 ∧
            k < (['p', 'q'] : List Char).length) :=
  ⟨rfl, make_figure_subplot_layout c2w_df ['p', 'q'] true c2w_fig rfl⟩

/-! ## C6: one trace per column, colored by its phase digit -/

/-- The color table sends only the phases 1, 2, 3 somewhere, namely to
red, blue and green respectively. -/
theorem color_dict_inv (ph : ℕ) (c : String) (h : color_dict ph = some c) :
    (ph = 1 ∨ ph = 2 ∨ ph = 3) ∧
      c = (if ph = 1 then "red" else if ph = 2 then "blue" else "green") := by
  rw [color_dict] at h
  split_ifs at h with h1 h2 h3
  · simp only [Option.some.injEq] at h
    exact ⟨Or.inl h1, by rw [if_pos h1, ← h]⟩
  · simp only [Option.some.injEq] at h
    exact ⟨Or.inr (Or.inl h2), by rw [if_neg h1, if_pos h2, ← h]⟩
  · simp only [Option.some.injEq] at h
    exact ⟨Or.inr (Or.inr h3), by rw [if_neg h1, if_neg h2, ← h]⟩

/-- C6.  A successful make_figure draws exactly one trace per plotted
column; the phase of a column is the digit at index 1 of its name, it
is one of 1, 2, 3, and the trace's line color is determined solely by
that phase: red for 1, blue for 2, green for 3. -/
theorem make_figure_trace_per_column (df : DataFrame ℚ) (S : List Char)
    (fo : Bool) (fig : Figure) (h : make_figure df S fo = some fig) :
    fig.traces.length = df.cols.length ∧
      ∀ j c, df.cols.get? j = some c →
        ∃ t ph, fig.traces.get? j = some t ∧ phase_num_of c.1 = some ph ∧
          (ph = 1 ∨ ph = 2 ∨ ph = 3) ∧
          t.color = (if ph = 1 then "red" else if ph = 2 then "blue" else "green") := by
  obtain ⟨titles, h1, h2, hfig⟩ := make_figure_inv df S fo fig h
  obtain ⟨hlen, hget⟩ := mk_traces_get S fo df.index df.cols [] fig.traces h2
  refine ⟨hlen, ?_⟩
  intro j c hc
  obtain ⟨t, lst2, hts, hmt⟩ := hget j c hc
  obtain ⟨⟨ph, hph, hcd, -⟩, -, -, -, -⟩ := mk_trace_spec S fo df.index lst2 c t hmt
  obtain ⟨hmem, hcol⟩ := color_dict_inv ph t.color hcd
  exact ⟨t, ph, hts, hph, hmem, hcol⟩

/-- Concrete three-phase dataframe for the C6 witness. -/
def c6_df : DataFrame ℚ :=
  { index := [0], cols := [("l1p", [1]), ("l2p", [2]), ("l3p", [3])] }

/-- The concrete figure make_figure builds on c6_df. -/
def c6_fig : Figure := (make_figure c6_df ['p'] false).getD junk_figure

/-- Witness for C6: on a concrete dataframe the hypothesis of
make_figure_trace_per_column holds and its conclusion follows. -/
theorem make_figure_trace_per_column_witness :
    (make_figure c6_df ['p'] false = some c6_fig) ∧
      (c6_fig.traces.length = c6_df.cols.length ∧
        ∀ j c, c6_df.cols.get? j = some c →
          ∃ t ph, c6_fig.traces.get? j = some t ∧ phase_num_of c.1 = some ph ∧
            (ph = 1 ∨ ph = 2 ∨ ph = 3) ∧
            t.color = (if ph = 1 then "red" else if ph = 2 then "blue" else "green")) :=
  ⟨rfl, make_figure_trace_per_column c6_df ['p'] false c6_fig rfl⟩

/-! ## C5: outlier removal exactly when the radio is not include -/

/-- C5.  In the callback, the plotted y series of every column is the
outlier-filtered series exactly when the radio value is not the string
include, and the raw series when it is. -/
theorem update_graph_outlier_mode (df : DataFrame ℚ) (S : List Char)
    (radio : String) (fig : Figure) (h : update_graph df S radio = some fig) :
    ∀ j c, (filter_df_cols df S).cols.get? j = some c →
      ∃ t, fig.traces.get? j = some t ∧
        t.y = (if radio = "include"
               then (df.index.zip c.2).map Prod.snd
               else (filter_outliers_from_series (df.index.zip c.2)).map Prod.snd) := by
  simp only [update_graph] at h
  obtain ⟨titles, h1, h2, hfig⟩ := make_figure_inv _ S _ fig h
  obtain ⟨hlen, hget⟩ := mk_traces_get S _ _ _ [] fig.traces h2
  intro j c hc
  obtain ⟨t, lst2, hts, hmt⟩ := hget j c hc
  obtain ⟨-, -, hy, -, -⟩ := mk_trace_spec _ _ _ lst2 c t hmt
  refine ⟨t, hts, ?_⟩
  rw [hy]
  by_cases hr : radio = "include"
  · simp [plotted_series, filter_df_cols, hr]
  · simp [plotted_series, filter_df_cols, hr]

/-- Concrete dataframe for the C5 witness. -/
def c5_df : DataFrame ℚ :=
  { index := [0, 1, 2], cols := [("l1p", [1, 2, 1]), ("l2q", [4, 4, 4])] }

/-- The concrete figure update_graph builds on c5_df in remove
mode. -/
def c5_fig : Figure := (update_graph c5_df ['p'] "remove").getD junk_figure

/-- Witness for C5: on a concrete dataframe and the radio value
remove, the hypothesis of update_graph_outlier_mode holds and its
conclusion follows. -/
theorem update_graph_outlier_mode_witness :
    (update_graph c5_df ['p'] "remove" = some c5_fig) ∧
      ∀ j c, (filter_df_cols c5_df ['p']).cols.get? j = some c →
        ∃ t, c5_fig.traces.get? j = some t ∧
          t.y = (if ("remove" : String) = "include"
                 then (c5_df.index.zip c.2).map Prod.snd
                 else (filter_outliers_from_series (c5_df.index.zip c.2)).map Prod.snd) :=
  ⟨rfl, update_graph_outlier_mode c5_df ['p'] "remove" c5_fig rfl⟩

/-! ## C8: the subplot-row lookup never fails on filtered columns -/

/-- C8.  Every column that survives filter_df_cols has a last
character that is found in the selection, so the
type_selection.index lookup of make_figure succeeds on it and the
resulting subplot row k + 1 lies in 1..len(type_selection). -/
theorem subplot_row_lookup_safe {α : Type} (df : DataFrame α) (S : List Char)
    (c : String × List α) (h : c ∈ (filter_df_cols df S).cols) :
    ∃ ch k, last_char c.1 = some ch ∧ py_index S ch = some k ∧
      1 ≤ k + 1 ∧ k + 1 ≤ S.length := by
  simp only [filter_df_cols, List.mem_filter] at h
  obtain ⟨-, hpred⟩ := h
  cases hlc : last_char c.1 with
  | none => rw [hlc] at hpred; simp at hpred
  | some ch =>
    rw [hlc] at hpred
    have hmem : ch ∈ S := by simpa using hpred
    obtain ⟨k, hk⟩ := mem_py_index S ch hmem
    have hklt := py_index_lt_length S ch k hk
    exact ⟨ch, k, rfl, hk, by omega, by omega⟩

/-- Concrete dataframe for the C8 witness. -/
def c8_df : DataFrame ℚ :=
  { index := [0], cols := [("l1v", [2]), ("l2i", [3])] }

/-- Witness for C8: a concrete column survives the filter and the row
lookup succeeds within bounds on it. -/
theorem subplot_row_lookup_safe_witness :
    (("l1v", [(2 : ℚ)]) ∈ (filter_df_cols c8_df ['i', 'v']).cols) ∧
      ∃ ch k, last_char "l1v" = some ch ∧ py_index ['i', 'v'] ch = some k ∧
        1 ≤ k + 1 ∧ k + 1 ≤ (['i', 'v'] : List Char).length :=
  ⟨by decide, subplot_row_lookup_safe c8_df ['i', 'v'] ("l1v", [2]) (by decide)⟩

/-! ## C10: the empty selection makes the update raise -/

/-- C10.  With an empty type selection every column is filtered away,
make_figure is handed a dataframe with zero columns, requests a
zero-row subplot grid (which plotly rejects; the loop variable used
for the layout height would also stay unbound), and so update_graph
raises instead of producing a figure: in the embedding the result is
none for every dataframe and every radio value. -/
theorem update_graph_empty_selection (df : DataFrame ℚ) (radio : String) :
    update_graph df [] radio = none := by
  simp only [update_graph]
  have hcols : (filter_df_cols df []).cols = [] := by
    simp only [filter_df_cols]
    apply List.filter_eq_nil_iff.mpr
    intro c hc
    cases hlc : last_char c.1 <;> simp [hlc]
  simp [make_figure, subplot_titles_of, hcols]
